import Mathlib

/-!
Verification of the orcfax price-monitor core: the feed registry
(feeds_to_monitor.py), the deviation calculator, the websocket exchange
error routing and the polling orchestrator's evaluate phase
(price_monitor.py).  Python floats are modelled as exact rationals;
Python exceptions and the implicit `None` return are modelled with
`Option`.
-/

namespace PriceMonitor

/-- A monitored feed, from the `Feed` dataclass in feeds_to_monitor.py:
a name and a percentage deviation threshold (the dataclass default for
`deviation` is 2.0). -/
structure Feed where
  name : String
  deviation : ℚ
deriving DecidableEq

/-- The static feed catalogue `feeds_to_monitor` from feeds_to_monitor.py.
Feeds written there without an explicit deviation get the dataclass
default 2.0. -/
def feeds_to_monitor : List Feed :=
  [⟨"ADA-USD", 1⟩,
   ⟨"ADA-IUSD", 2⟩,
   ⟨"ADA-USDM", 2⟩,
   ⟨"ADA-DJED", 2⟩,
   ⟨"SHEN-ADA", 2⟩,
   ⟨"MIN-ADA", 2⟩,
   ⟨"FACT-ADA", 2⟩,
   ⟨"LQ-ADA", 2⟩,
   ⟨"SNEK-ADA", 2⟩,
   ⟨"LENFI-ADA", 2⟩,
   ⟨"HUNT-ADA", 2⟩,
   ⟨"IBTC-ADA", 2⟩,
   ⟨"IETH-ADA", 2⟩]

/-- The loop body of `get_deviation`: walk the feed list, skip feeds
whose name differs (`continue`), return the first match's deviation.
Falling off the end of a Python function returns `None`, modelled as
`none`. -/
def get_deviation_loop : List Feed → String → Option ℚ
  | [], _ => none
  | feed :: rest, feed_id =>
    if feed.name ≠ feed_id then get_deviation_loop rest feed_id
    else some feed.deviation

/-- `get_deviation(feed_id)` from feeds_to_monitor.py. -/
def get_deviation (feed_id : String) : Option ℚ :=
  get_deviation_loop feeds_to_monitor feed_id

/-- `determine_deviation(values)` from price_monitor.py.
`if not values: return 0.0`; otherwise the code reads `values[0]` and
`values[1]` (an `IndexError` on a one-element list, modelled `none`) and
computes `100 - min(v0, v1) / max(v0, v1) * 100` (a `ZeroDivisionError`
when the max is zero, modelled `none`). -/
def determine_deviation (values : List ℚ) : Option ℚ :=
  match values with
  | [] => some 0
  | [_] => none
  | v0 :: v1 :: _ =>
    if max v0 v1 = 0 then none
    else some (100 - min v0 v1 / max v0 v1 * 100)

example : determine_deviation [] = some 0 := by norm_num [determine_deviation]
example : determine_deviation [1, 2] = some 50 := by
  norm_num [determine_deviation, min_def, max_def]
example : determine_deviation [1] = none := by norm_num [determine_deviation]
example : get_deviation "ADA-USD" = some 1 := by decide
example : get_deviation "ADA-IUSD" = some 2 := by decide
example : get_deviation "ADA-EUR" = none := by decide

/-! ## The polling orchestrator's cycle (price_monitor.py, `price_monitor`)

A poll response is modelled after the documented shape
`\x7b"error": null|string, "data": [\x7b"<feed>": [a, b]\x7d, ...]\x7d`:
`error` is `none` when the field is absent or JSON `null`, and each
`data` entry is a JSON object modelled as an insertion-ordered
association list. -/

/-- A structured poll response. -/
structure Response where
  error : Option String
  data : List (List (String × List ℚ))

/-- Python truthiness of `data.get("error")`: `None` (absent key or JSON
null) and the empty string are falsy; any other string is truthy. -/
def errTruthy : Option String → Bool
  | none => false
  | some s => s ≠ ""

/-- The body of the orchestrator's per-entry loop over
`data.get("data", [])`.  For each entry the code takes
`list(price_pair.keys())[0]` and `list(price_pair.values())[0]` (an
`IndexError` on an empty object, modelled `none`), computes the
deviation (exceptions propagate), skips the entry when the deviation is
falsy (`if not deviation: continue`), looks up the feed threshold
(comparing a float with Python `None` is a `TypeError`, modelled `none`)
and appends the pair name when `deviation >= feed_deviation`. -/
def evalPairs : List (List (String × List ℚ)) → Option (List String)
  | [] => some []
  | price_pair :: rest =>
    match price_pair.head? with
    | none => none
    | some (pair, values) =>
      match determine_deviation values with
      | none => none
      | some deviation =>
        if deviation = 0 then evalPairs rest
        else
          match get_deviation pair with
          | none => none
          | some feed_deviation =>
            match evalPairs rest with
            | none => none
            | some tail =>
              some (if feed_deviation ≤ deviation then pair :: tail else tail)

/-- Observable outcome of one iteration of the `while True` loop. -/
inductive CycleStep where
  | errorLogged
  | crash
  | noRequest
  | request (feeds : List String)
deriving DecidableEq

/-- One iteration of the orchestrator loop: if `data.get("error")` is
truthy, log and sleep (`errorLogged`); otherwise evaluate the price
pairs (`crash` when an exception escapes), and either log-and-sleep on
an empty batch (`noRequest`) or send `\x7b"feeds": [...]\x7d` to the
validation endpoint (`request`). -/
def price_monitor_cycle (resp : Response) : CycleStep :=
  if errTruthy resp.error then .errorLogged
  else
    match evalPairs resp.data with
    | none => .crash
    | some [] => .noRequest
    | some pairs_to_request => .request pairs_to_request

example : price_monitor_cycle ⟨some "server busy", [[("ADA-USD", [1, 2])]]⟩ = .errorLogged := by
  decide
example : evalPairs [[("ADA-USD", [1, 103/100])]] = some ["ADA-USD"] := by
  norm_num [evalPairs, determine_deviation, get_deviation, get_deviation_loop,
    feeds_to_monitor, min_def, max_def]

/-! ## Endpoint addresses and the poll request message -/

/-- `MONITOR_URI = f"\x7bVALIDATOR_URI\x7dprice_monitor/"`, parameterized by
the `ORCFAX_VALIDATOR` environment value. -/
def MONITOR_URI (validator_uri : String) : String :=
  validator_uri ++ "price_monitor/"

/-- `VALIDATION_REQUEST_URI = f"\x7bVALIDATOR_URI\x7dvalidate_on_demand/"`. -/
def VALIDATION_REQUEST_URI (validator_uri : String) : String :=
  validator_uri ++ "validate_on_demand/"

/-- `json.dumps` of a list of plain strings with the default separators. -/
def json_dumps_str_list (xs : List String) : String :=
  "[" ++ String.intercalate ", " (xs.map (fun s => "\"" ++ s ++ "\"")) ++ "]"

/-- `json.dumps` of the one-key object `\x7b"feed_ids": [...]\x7d`. -/
def json_dumps_feed_ids (ids : List String) : String :=
  "\x7b\"feed_ids\": " ++ json_dumps_str_list ids ++ "\x7d"

/-- `price_request_msg()` from price_monitor.py: serializes
`\x7b"feed_ids": [feed.name for feed in feeds_to_monitor]\x7d`. -/
def price_request_msg : String :=
  json_dumps_feed_ids (feeds_to_monitor.map Feed.name)

/-! ## One websocket exchange (`connect_to_websocket`)

The transport is modelled by the event the `try` block runs into, one
constructor per handled exception class of the source; the reply payload
and the JSON decoder are abstract (`json.loads` becomes a `decode`
function into an arbitrary result type). -/

/-- What happens inside the `try` block of `connect_to_websocket`. -/
inductive WsEvent where
  | reply (raw : String)
  | invalidURI
  | typeErr
  | connClosedError
  | connClosedOK

/-- Observable result of `connect_to_websocket`: a decoded reply, the
raw reply text when decoding fails, the empty response `\x7b\x7d`, an
exception re-raised to the tenacity retry decorator, or `sys.exit`. -/
inductive WsOutcome (α : Type) where
  | parsed (a : α)
  | raw (s : String)
  | empty
  | raised
  | procExit (code : Nat)
deriving DecidableEq

/-- `connect_to_websocket(ws_uri, msg_to_send, local)` from
price_monitor.py.  A received reply is `json.loads`-decoded, falling
back to the raw text on `JSONDecodeError`; `InvalidURI` logs and calls
`sys.exit(1)`; `TypeError` logs and returns `\x7b\x7d`;
`ConnectionClosedError` (and `InvalidStatusCode`) re-raises the error
only when `ws_uri == MONITOR_URI`, returning `\x7b\x7d` otherwise;
`ConnectionClosedOK` logs and returns `\x7b\x7d`. -/
def connect_to_websocket {α : Type} (decode : String → Option α)
    (monitor_uri ws_uri : String) (ev : WsEvent) : WsOutcome α :=
  match ev with
  | .reply raw =>
    match decode raw with
    | some v => .parsed v
    | none => .raw raw
  | .invalidURI => .procExit 1
  | .typeErr => .empty
  | .connClosedError => if ws_uri = monitor_uri then .raised else .empty
  | .connClosedOK => .empty

/-- Severity of one logger call in the source. -/
inductive LogLevel where
  | info
  | warning
  | error
deriving DecidableEq

/-- The reply-handling path of `connect_to_websocket` together with the
log records it emits.  The `try` body logs `info "connected to
websocket"` and then `info` of the sent message before `recv`; the
reply is decoded, and a decode failure is handled by
`except json.JSONDecodeError: pass` — which emits no record — before
the raw text is returned, so the outer handler for the same exception
class (the one that would log) is never reached on this path. -/
def reply_result_and_logs {α : Type} (decode : String → Option α)
    (msg_to_send raw : String) : WsOutcome α × List (LogLevel × String) :=
  let pre := [(LogLevel.info, "connected to websocket"), (LogLevel.info, msg_to_send)]
  match decode raw with
  | some v => (WsOutcome.parsed v, pre)
  | none => (WsOutcome.raw raw, pre)

/-! ## Spec-side characterization of the request batch (for claim C1)

`batch_entry_spec` renders the claim's wording: an entry contributes its
feed name exactly when its computed deviation is non-zero and at least
the threshold which the registry lookup returned for that name. -/

/-- Spec wording for one price-pair entry: the name of the entry's first
key, kept iff its deviation is non-zero and at least the looked-up
threshold. -/
def batch_entry_spec (price_pair : List (String × List ℚ)) : Option String :=
  match price_pair.head? with
  | none => none
  | some (pair, values) =>
    match determine_deviation values with
    | none => none
    | some deviation =>
      match get_deviation pair with
      | none => none
      | some threshold =>
        if deviation ≠ 0 ∧ threshold ≤ deviation then some pair else none

/-! ## Helper lemmas -/

/-- On success, the evaluate loop returns exactly the first keys of the
entries selected by `batch_entry_spec`, in order. -/
theorem evalPairs_eq_filterMap (ps : List (List (String × List ℚ))) :
    ∀ b, evalPairs ps = some b → b = ps.filterMap batch_entry_spec := by
  induction ps with
  | nil =>
    intro b hb
    simp [evalPairs] at hb
    simp [hb.symm]
  | cons pp rest ih =>
    intro b hb
    rw [List.filterMap_cons]
    cases pp with
    | nil => simp [evalPairs] at hb
    | cons kv tl =>
      obtain ⟨pair, values⟩ := kv
      simp only [evalPairs, List.head?_cons] at hb
      cases hdev : determine_deviation values with
      | none => rw [hdev] at hb; simp at hb
      | some dev =>
        simp only [hdev] at hb
        by_cases hz : dev = 0
        · rw [if_pos hz] at hb
          have hspec : batch_entry_spec ((pair, values) :: tl) = none := by
            simp only [batch_entry_spec, List.head?_cons, hdev]
            cases get_deviation pair <;> simp [hz]
          rw [hspec]
          exact ih b hb
        · rw [if_neg hz] at hb
          cases hthr : get_deviation pair with
          | none => rw [hthr] at hb; simp at hb
          | some thr =>
            simp only [hthr] at hb
            cases htail : evalPairs rest with
            | none => rw [htail] at hb; simp at hb
            | some tail =>
              simp only [htail] at hb
              have htl := ih tail htail
              have hspec : batch_entry_spec ((pair, values) :: tl) =
                  if thr ≤ dev then some pair else none := by
                simp only [batch_entry_spec, List.head?_cons, hdev, hthr]
                by_cases hle : thr ≤ dev
                · simp [hle, hz]
                · simp [hle]
              rw [hspec]
              by_cases hle : thr ≤ dev
              · rw [if_pos hle] at hb
                rw [if_pos hle]
                simp only [Option.some.injEq] at hb
                rw [hb.symm, htl]
              · rw [if_neg hle] at hb
                rw [if_neg hle]
                simp only [Option.some.injEq] at hb
                rw [hb.symm, htl]

/-- The first loop of `get_deviation` is a first-match search. -/
theorem get_deviation_loop_eq_find (l : List Feed) (feed_id : String) :
    get_deviation_loop l feed_id =
      (l.find? (fun g => g.name == feed_id)).map Feed.deviation := by
  induction l with
  | nil => simp [get_deviation_loop]
  | cons f rest ih =>
    by_cases h : f.name = feed_id
    · rw [List.find?_cons_of_pos _ (by simp [h])]
      simp [get_deviation_loop, h]
    · rw [List.find?_cons_of_neg _ (by simp [h])]
      simp [get_deviation_loop, h, ih]

/-- The two endpoint addresses differ for every base URI (their fixed
suffixes have different lengths). -/
theorem monitor_uri_ne_validation_uri (v : String) :
    MONITOR_URI v ≠ VALIDATION_REQUEST_URI v := by
  intro h
  have hlen := congrArg String.length h
  rw [MONITOR_URI, VALIDATION_REQUEST_URI, String.length_append,
    String.length_append] at hlen
  have h1 : "price_monitor/".length = 14 := rfl
  have h2 : "validate_on_demand/".length = 19 := rfl
  rw [h1, h2] at hlen
  omega

/-! ## Claim theorems -/

/-- Claim C1: in a cycle whose response has no error field set, a feed
name enters the update-request batch iff its entry's deviation is
non-zero and at least the looked-up threshold (zero deviations are
skipped), and an empty batch means no update request is issued. -/
theorem batch_iff_threshold (resp : Response) (batch : List String)
    (herr : resp.error = none) (hb : evalPairs resp.data = some batch) :
    batch = resp.data.filterMap batch_entry_spec
    ∧ (batch = [] → price_monitor_cycle resp = .noRequest)
    ∧ (batch ≠ [] → price_monitor_cycle resp = .request batch) := by
  refine ⟨evalPairs_eq_filterMap resp.data batch hb, ?_, ?_⟩
  · intro h
    subst h
    simp [price_monitor_cycle, herr, errTruthy, hb]
  · intro h
    cases hbatch : batch with
    | nil => exact absurd hbatch h
    | cons a t =>
      subst hbatch
      simp [price_monitor_cycle, herr, errTruthy, hb]

/-- Witness for C1 at the spec's worked example: threshold 1.0 for
ADA-USD and observed pair (1.00, 1.03), deviation 300/103 ≈ 2.91. -/
theorem batch_iff_threshold_witness :
    (⟨none, [[("ADA-USD", [1, 103/100])]]⟩ : Response).error = none
    ∧ evalPairs [[("ADA-USD", [1, 103/100])]] = some ["ADA-USD"]
    ∧ ["ADA-USD"] = List.filterMap batch_entry_spec [[("ADA-USD", [1, 103/100])]]
    ∧ price_monitor_cycle ⟨none, [[("ADA-USD", [1, 103/100])]]⟩ = .request ["ADA-USD"] := by
  have heval : evalPairs [[("ADA-USD", [1, 103/100])]] = some ["ADA-USD"] := by
    norm_num [evalPairs, determine_deviation, get_deviation, get_deviation_loop,
      feeds_to_monitor, min_def, max_def]
  have h := batch_iff_threshold ⟨none, [[("ADA-USD", [1, 103/100])]]⟩ ["ADA-USD"] rfl heval
  exact ⟨rfl, heval, h.1, h.2.2 (by simp)⟩

/-- Claim C2 counterexample: "ADA-EUR" is registered nowhere, yet the
lookup returns Python None (no value), not the claimed default 2.0. -/
theorem lookup_absent_counterexample :
    (∀ f ∈ feeds_to_monitor, f.name ≠ "ADA-EUR")
    ∧ get_deviation "ADA-EUR" = none
    ∧ get_deviation "ADA-EUR" ≠ some 2 := by
  refine ⟨by decide, by decide, by decide⟩

/-- Claim C2 (amended): the lookup returns the configured threshold of
the first feed carrying the name when one is present, and returns no
value (Python None, not the default 2.0) when the name is absent. -/
theorem lookup_spec (feed_id : String) :
    (∀ f, feeds_to_monitor.find? (fun g => g.name == feed_id) = some f →
      get_deviation feed_id = some f.deviation)
    ∧ ((∀ f ∈ feeds_to_monitor, f.name ≠ feed_id) → get_deviation feed_id = none) := by
  constructor
  · intro f hf
    rw [get_deviation, get_deviation_loop_eq_find, hf, Option.map_some']
  · intro habs
    rw [get_deviation, get_deviation_loop_eq_find, List.find?_eq_none.mpr, Option.map_none']
    intro f hf
    simp [habs f hf]

/-- Witness for C2 (amended) at a present and an absent name. -/
theorem lookup_spec_witness :
    get_deviation "ADA-USD" = some 1 ∧ get_deviation "ADA-XYZ" = none := by
  exact ⟨(lookup_spec "ADA-USD").1 ⟨"ADA-USD", 1⟩ (by decide),
    (lookup_spec "ADA-XYZ").2 (by decide)⟩

/-- Claim C3 counterexample: a one-element value list makes the
deviation calculation fail (IndexError) instead of returning 0.0. -/
theorem deviation_singleton_counterexample :
    determine_deviation [1] = none ∧ determine_deviation [1] ≠ some 0 := by
  exact ⟨rfl, by simp [determine_deviation]⟩

/-- Claim C3 (amended): the empty list returns 0.0 and a pair with
non-zero max returns `100 - min(a,b)/max(a,b)*100`, but a one-element
list raises IndexError and a pair whose max is zero raises
ZeroDivisionError, so the calculation is not total. -/
theorem deviation_cases_spec :
    determine_deviation [] = some 0
    ∧ (∀ a : ℚ, determine_deviation [a] = none)
    ∧ (∀ (a b : ℚ) (rest : List ℚ), max a b ≠ 0 →
        determine_deviation (a :: b :: rest) = some (100 - min a b / max a b * 100))
    ∧ (∀ (a b : ℚ) (rest : List ℚ), max a b = 0 →
        determine_deviation (a :: b :: rest) = none) := by
  refine ⟨rfl, fun a => rfl, fun a b rest h => by simp [determine_deviation, h],
    fun a b rest h => by simp [determine_deviation, h]⟩

/-- Witness for C3 (amended) at the pair (1, 2). -/
theorem deviation_cases_spec_witness :
    max (1 : ℚ) 2 ≠ 0
    ∧ determine_deviation [1, 2] = some (100 - min (1 : ℚ) 2 / max (1 : ℚ) 2 * 100) := by
  refine ⟨by norm_num [max_def], deviation_cases_spec.2.2.1 1 2 [] (by norm_num [max_def])⟩

/-- Claim C4: a connection-closed error is re-raised (into the backoff
retry decorator) iff the target URI is the polling endpoint; on the
update-request endpoint the exchange returns the empty response. -/
theorem conn_closed_routing {α : Type} (decode : String → Option α) (v ws_uri : String) :
    (connect_to_websocket decode (MONITOR_URI v) ws_uri .connClosedError
        = WsOutcome.raised
      ↔ ws_uri = MONITOR_URI v)
    ∧ connect_to_websocket decode (MONITOR_URI v) (VALIDATION_REQUEST_URI v) .connClosedError
      = WsOutcome.empty := by
  constructor
  · by_cases h : ws_uri = MONITOR_URI v <;> simp [connect_to_websocket, h]
  · simp [connect_to_websocket, Ne.symm (monitor_uri_ne_validation_uri v)]

/-- Witness for C4 at a concrete base URI. -/
theorem conn_closed_routing_witness :
    connect_to_websocket (fun _ => (none : Option Nat)) (MONITOR_URI "wss://x/")
      (VALIDATION_REQUEST_URI "wss://x/") .connClosedError = WsOutcome.empty := by
  exact (conn_closed_routing (fun _ => (none : Option Nat)) "wss://x/"
    (VALIDATION_REQUEST_URI "wss://x/")).2

/-- Claim C5 counterexample: a response that carries an error field set
to the empty string is not skipped — the cycle computes deviations and
issues an update request (Python truthiness treats "" as no error). -/
theorem error_empty_string_counterexample :
    (⟨some "", [[("ADA-USD", [1, 103/100])]]⟩ : Response).error ≠ none
    ∧ price_monitor_cycle ⟨some "", [[("ADA-USD", [1, 103/100])]]⟩
      = .request ["ADA-USD"] := by
  refine ⟨by simp, ?_⟩
  norm_num [price_monitor_cycle, errTruthy, evalPairs, determine_deviation,
    get_deviation, get_deviation_loop, feeds_to_monitor, min_def, max_def]

/-- Claim C5 (amended): when the error field holds a truthy (non-empty)
string, the cycle only logs the error and sleeps: no deviation is
computed and no update request is issued. -/
theorem error_skips_cycle (resp : Response) (h : errTruthy resp.error = true) :
    price_monitor_cycle resp = .errorLogged := by
  simp [price_monitor_cycle, h]

/-- Witness for C5 (amended) at the spec's "server busy" example. -/
theorem error_skips_cycle_witness :
    errTruthy (some "server busy") = true
    ∧ price_monitor_cycle ⟨some "server busy", [[("ADA-USD", [1, 2])]]⟩
      = .errorLogged := by
  exact ⟨by decide,
    error_skips_cycle ⟨some "server busy", [[("ADA-USD", [1, 2])]]⟩ (by decide)⟩

/-- Claim C6 counterexample: with a failing decoder the exchange does
return the raw text, but the log records of the failing reply path are
exactly those of a succeeding one — the two pre-receive info records
and no warning or error record at all — so the decode failure itself is
never logged. -/
theorem decode_failure_unlogged_counterexample :
    (reply_result_and_logs (fun _ : String => (none : Option Nat)) "msg" "not json").1
      = WsOutcome.raw "not json"
    ∧ (reply_result_and_logs (fun _ : String => (none : Option Nat)) "msg" "not json").2
      = (reply_result_and_logs (fun _ : String => (some 0 : Option Nat)) "msg" "ok").2
    ∧ ((reply_result_and_logs (fun _ : String => (none : Option Nat)) "msg" "not json").2.filter
        (fun r => r.1 != LogLevel.info)) = [] := by
  exact ⟨rfl, rfl, rfl⟩

/-- Claim C6 (amended): every received reply goes through JSON
deserialization; a decode failure yields the raw reply text as the
result and is not raised, but the failure is silently swallowed
(`except json.JSONDecodeError: pass`), not logged: the reply path emits
only the two pre-receive info records whatever the decode outcome. -/
theorem reply_decode_fallback {α : Type} (decode : String → Option α)
    (monitor_uri ws_uri msg_to_send s : String) :
    (∀ v, decode s = some v →
      connect_to_websocket decode monitor_uri ws_uri (.reply s) = WsOutcome.parsed v)
    ∧ (decode s = none →
      connect_to_websocket decode monitor_uri ws_uri (.reply s) = WsOutcome.raw s)
    ∧ connect_to_websocket decode monitor_uri ws_uri (.reply s) ≠ WsOutcome.raised
    ∧ (reply_result_and_logs decode msg_to_send s).1
      = connect_to_websocket decode monitor_uri ws_uri (.reply s)
    ∧ (reply_result_and_logs decode msg_to_send s).2
      = [(LogLevel.info, "connected to websocket"), (LogLevel.info, msg_to_send)] := by
  refine ⟨fun v hv => by simp [connect_to_websocket, hv],
    fun h => by simp [connect_to_websocket, h], ?_, ?_, ?_⟩
  · cases h : decode s <;> simp [connect_to_websocket, h]
  · cases h : decode s <;> simp [connect_to_websocket, reply_result_and_logs, h]
  · cases h : decode s <;> simp [reply_result_and_logs, h]

/-- Witness for C6 (amended) with a decoder that rejects the reply. -/
theorem reply_decode_fallback_witness :
    (fun _ : String => (none : Option Nat)) "oops" = none
    ∧ connect_to_websocket (fun _ : String => (none : Option Nat)) "m" "u" (.reply "oops")
      = WsOutcome.raw "oops"
    ∧ (reply_result_and_logs (fun _ : String => (none : Option Nat)) "sent" "oops").2
      = [(LogLevel.info, "connected to websocket"), (LogLevel.info, "sent")] := by
  exact ⟨rfl,
    (reply_decode_fallback (fun _ : String => (none : Option Nat)) "m" "u" "sent" "oops").2.1 rfl,
    (reply_decode_fallback (fun _ : String => (none : Option Nat)) "m" "u" "sent" "oops").2.2.2.2⟩

/-- Claim C7: a malformed or unset endpoint address terminates the
process with exit code 1 (non-zero) and is never re-raised into the
retry decorator. -/
theorem invalid_uri_fatal {α : Type} (decode : String → Option α)
    (monitor_uri ws_uri : String) :
    connect_to_websocket decode monitor_uri ws_uri .invalidURI = WsOutcome.procExit 1
    ∧ (1 : Nat) ≠ 0
    ∧ connect_to_websocket decode monitor_uri ws_uri .invalidURI ≠ WsOutcome.raised := by
  refine ⟨rfl, by simp, by simp [connect_to_websocket]⟩

/-- Witness for C7 at concrete arguments. -/
theorem invalid_uri_fatal_witness :
    connect_to_websocket (fun _ : String => (none : Option Nat)) "m" "u" .invalidURI
      = WsOutcome.procExit 1 := by
  exact (invalid_uri_fatal (fun _ : String => (none : Option Nat)) "m" "u").1

/-- Claim C9: the poll request message is the single JSON object
`\x7b"feed_ids": [...]\x7d` listing exactly one name per registry feed,
in registry order. -/
theorem price_request_msg_spec :
    price_request_msg = json_dumps_feed_ids (feeds_to_monitor.map Feed.name)
    ∧ (feeds_to_monitor.map Feed.name).length = feeds_to_monitor.length
    ∧ price_request_msg =
      "\x7b\"feed_ids\": [\"ADA-USD\", \"ADA-IUSD\", \"ADA-USDM\", \"ADA-DJED\", \"SHEN-ADA\", \"MIN-ADA\", \"FACT-ADA\", \"LQ-ADA\", \"SNEK-ADA\", \"LENFI-ADA\", \"HUNT-ADA\", \"IBTC-ADA\", \"IETH-ADA\"]\x7d" := by
  refine ⟨rfl, by simp, ?_⟩
  rfl

/-- Claim C10: only the first key/value of a price-pair entry is
examined — extra keys are ignored — and an empty entry object makes the
evaluate phase fail rather than being skipped. -/
theorem entry_first_key_only (kv : String × List ℚ)
    (extra : List (String × List ℚ)) (more : List (List (String × List ℚ))) :
    evalPairs ((kv :: extra) :: more) = evalPairs ([kv] :: more)
    ∧ evalPairs ([] :: more) = none
    ∧ price_monitor_cycle ⟨none, [] :: more⟩ = .crash := by
  refine ⟨?_, rfl, ?_⟩
  · obtain ⟨pair, values⟩ := kv
    simp [evalPairs]
  · simp [price_monitor_cycle, errTruthy, evalPairs]

/-- Claim C8: for positive observed values the deviation is defined,
non-negative and strictly below 100. -/
theorem deviation_range (a b : ℚ) (ha : 0 < a) (hb : 0 < b) :
    determine_deviation [a, b] = some (100 - min a b / max a b * 100)
    ∧ 0 ≤ 100 - min a b / max a b * 100
    ∧ 100 - min a b / max a b * 100 < 100 := by
  have hmax : 0 < max a b := lt_max_of_lt_left ha
  have hne : max a b ≠ 0 := ne_of_gt hmax
  refine ⟨by simp [determine_deviation, hne], ?_, ?_⟩
  · have h1 : min a b / max a b ≤ 1 := div_le_one_of_le₀ min_le_max (le_of_lt hmax)
    nlinarith
  · have hmin : 0 < min a b := lt_min ha hb
    have h2 : 0 < min a b / max a b := div_pos hmin hmax
    nlinarith

/-- Witness for C8 at the pair (1, 2). -/
theorem deviation_range_witness :
    (0 : ℚ) < 1 ∧ (0 : ℚ) < 2
    ∧ determine_deviation [1, 2] = some (100 - min (1 : ℚ) 2 / max (1 : ℚ) 2 * 100)
    ∧ 0 ≤ 100 - min (1 : ℚ) 2 / max (1 : ℚ) 2 * 100
    ∧ 100 - min (1 : ℚ) 2 / max (1 : ℚ) 2 * 100 < 100 := by
  exact ⟨by norm_num, by norm_num, deviation_range 1 2 (by norm_num) (by norm_num)⟩

end PriceMonitor
